import Mathlib

/-!
Verification of the call-interception logger in `log10/load.py`.

The file embeds the module shallowly:

* `PyVal` models JSON-serializable Python values (the arguments and return
  values of wrapped callables); `jsonDumps` models `json.dumps` with its
  default separators.
* `Env` models the process environment seen by one intercepted call: the
  configured target service, the globals `sessionID` / `org_id`, and the
  outcome of each backend interaction (`requests.request`, BigQuery inserts).
* `log_async` models the coroutine run by the worker thread spawned in
  `wrapper`; its first component is the value `run_async_in_thread` would put
  on `result_queue` (`Except.error` when the coroutine raises, in which case
  nothing is ever enqueued).
* `runWrapper` models one execution of `wrapper` from
  `intercepting_decorator`, producing a `CallResult`: either a returned value
  together with the ordered trace of observable events, or `diverges` when
  the busy-poll `while result_queue.empty(): pass` can never exit because the
  worker thread died before enqueueing a completion id.
* `Func`, `runFunc` model (possibly repeatedly wrapped) Python function
  objects and their invocation; `intercept_class_methods` and `log10` model
  the instrumentation scanner; `log10_session` members model the context
  manager.
-/

namespace Log10

/-- JSON-serializable Python values: arguments and outputs of wrapped calls. -/
inductive PyVal where
  | none
  | bool (b : Bool)
  | int (n : Int)
  | str (s : String)
  | list (xs : List PyVal)
  | dict (kvs : List (String × PyVal))
deriving Repr

/-- Escaping of one character inside a JSON string literal. -/
def jsonEscapeChar (c : Char) : String :=
  if c = '\\' then "\\\\"
  else if c = '"' then "\\\""
  else String.singleton c

/-- Body of a JSON string literal. -/
def jsonEscape (s : String) : String :=
  String.join (s.toList.map jsonEscapeChar)

/-- Model of `json.dumps` on a `str`. -/
def jsonQuote (s : String) : String :=
  "\"" ++ jsonEscape s ++ "\""

mutual

/-- Model of `json.dumps` with the default separators `", "` and `": "`. -/
def jsonDumps : PyVal → String
  | .none => "null"
  | .bool true => "true"
  | .bool false => "false"
  | .int n => toString n
  | .str s => jsonQuote s
  | .list xs => "[" ++ jsonDumpsList xs ++ "]"
  | .dict kvs => "\x7b" ++ jsonDumpsDict kvs ++ "\x7d"

/-- Comma-separated serialization of a JSON array body. -/
def jsonDumpsList : List PyVal → String
  | [] => ""
  | [x] => jsonDumps x
  | x :: y :: xs => jsonDumps x ++ ", " ++ jsonDumpsList (y :: xs)

/-- Comma-separated serialization of a JSON object body. -/
def jsonDumpsDict : List (String × PyVal) → String
  | [] => ""
  | [(k, v)] => jsonQuote k ++ ": " ++ jsonDumps v
  | (k, v) :: p :: kvs => jsonQuote k ++ ": " ++ jsonDumps v ++ ", " ++ jsonDumpsDict (p :: kvs)

end

/-- One entry of `traceback.extract_stack()` as serialized by `wrapper`. -/
structure StackFrame where
  file : String
  line : String
  lineno : Int
  name : String
deriving Repr

/-- The dict built from one stack frame in `wrapper` (lines 159-162). -/
def frameDict (f : StackFrame) : PyVal :=
  .dict [("file", .str f.file), ("line", .str f.line),
         ("lineno", .int f.lineno), ("name", .str f.name)]

/-- The `log_row` dict sent by the start phase (`log_async`, lines 88-96);
`id` and `created_at` are only populated on the BigQuery path (lines 104-105). -/
structure StartRow where
  status : String
  orig_module : String
  orig_qualname : String
  request : String
  session_id : String
  organization_id : String
  id : Option String := Option.none
  created_at : Option String := Option.none
deriving Repr

/-- The `log_row` dict sent by the finish phase (`wrapper`, lines 175-180). -/
structure FinishRow where
  response : String
  status : String
  duration : Nat
  stacktrace : String
deriving Repr

/-- Observable events of one intercepted call, in program order.
Events of the worker thread are placed at the spawn point; only the
thread's final queue handoff is order-relevant to the main path. -/
inductive Event where
  | threadSpawned
  | completionPostAttempt
  | startRowAttempt (row : StartRow)
  | bigqueryStartTried (row : StartRow) (ok : Bool)
  | threadDied (e : String)
  | stackCaptured
  | callReturned
  | cidReceived (cid : String)
  | finishAttempt (cid : String) (row : FinishRow)
  | bigqueryFinishTried (row : FinishRow) (ok : Bool)
  | errorLogged (e : String)
deriving Repr

/-- Environment of one intercepted call: module-level configuration and the
outcome of each external interaction attempted during the call. -/
structure Env where
  targetService : Option String
  sessionID : String
  orgId : String
  startPost : Except String String
  startLogPost : Except String Unit
  bqStartInsert : Except String Unit
  finishPost : Except String Unit
  bqFinishInsert : Except String Unit
  newUuid : String
  nowIso : String
  durationMs : Nat
  stack : List StackFrame

/-- Python function metadata copied by `functools.wraps`. -/
structure FuncMeta where
  module : String
  name : String
  qualname : String
  doc : Option String
deriving Repr, DecidableEq

/-- The start-phase `log_row` of `log_async` (lines 88-96): only the keyword
arguments are serialized into `request`. -/
def mkStartRow (env : Env) (fm : FuncMeta) (kwargs : List (String × PyVal)) : StartRow :=
  { status := "started"
    orig_module := fm.module
    orig_qualname := fm.qualname
    request := jsonDumps (.dict kwargs)
    session_id := env.sessionID
    organization_id := env.orgId }

/-- Model of `log_async` as run by the worker thread (lines 80-118).  The
first component is what `run_async_in_thread` puts on `result_queue`; an
`Except.error` means the coroutine raised, the thread died, and nothing is
ever enqueued.  The second component is the thread's event trace. -/
def log_async (env : Env) (fm : FuncMeta) (kwargs : List (String × PyVal)) :
    Except String String × List Event :=
  match env.startPost with
  | .error e => (.error e, [.completionPostAttempt, .threadDied e])
  | .ok completionID =>
    let log_row := mkStartRow env fm kwargs
    if env.targetService = some "log10" then
      match env.startLogPost with
      | .ok _ => (.ok completionID, [.completionPostAttempt, .startRowAttempt log_row])
      | .error e =>
        (.error e, [.completionPostAttempt, .startRowAttempt log_row, .threadDied e])
    else if env.targetService = some "bigquery" then
      let bq_row := { log_row with id := some env.newUuid, created_at := some env.nowIso }
      match env.bqStartInsert with
      | .ok _ => (.ok completionID, [.completionPostAttempt, .bigqueryStartTried bq_row true])
      | .error e =>
        (.ok completionID,
         [.completionPostAttempt, .bigqueryStartTried bq_row false, .errorLogged e])
    else (.ok completionID, [.completionPostAttempt])

/-- Outcome of calling a (possibly wrapped) Python callable. -/
inductive CallResult where
  | diverges (tr : List Event)
  | ok (v : PyVal) (tr : List Event)
  | raises (e : String) (tr : List Event)
deriving Repr

/-- Event trace of a call outcome. -/
def CallResult.trace : CallResult → List Event
  | .diverges tr => tr
  | .ok _ tr => tr
  | .raises _ tr => tr

/-- Whether the call terminates (returns or raises). -/
def CallResult.terminates : CallResult → Bool
  | .diverges _ => false
  | .ok _ _ => true
  | .raises _ _ => true

/-- The value returned by the call, when it terminates normally. -/
def CallResult.returnsValue : CallResult → Option PyVal
  | .ok v _ => some v
  | _ => Option.none

/-- The serialized stacktrace sent by the finish phase. -/
def stackJson (env : Env) : String :=
  jsonDumps (.list (env.stack.map frameDict))

/-- Model of one execution of `wrapper` (lines 148-198).  `fm` is the
metadata of the wrapped `func`; `kwargs` is forwarded to the worker thread;
`innerResult` is the outcome of `func(*args, **kwargs)`.  When the worker
thread dies before enqueueing (`log_async` raised), the busy-poll on line
170 can never exit and the call diverges — unless `func` raised first, in
which case control had already jumped to the blanket handler on line 195. -/
def runWrapper (env : Env) (fm : FuncMeta) (kwargs : List (String × PyVal))
    (innerResult : CallResult) : CallResult :=
  let threadOut := log_async env fm kwargs
  let tr1 := Event.threadSpawned :: threadOut.2 ++ [Event.stackCaptured]
  match innerResult with
  | .diverges itr => .diverges (tr1 ++ itr)
  | .raises e itr => .ok PyVal.none (tr1 ++ itr ++ [Event.errorLogged e])
  | .ok v itr =>
    let tr2 := tr1 ++ itr ++ [Event.callReturned]
    match threadOut.1 with
    | .error _ => .diverges tr2
    | .ok completionID =>
      let tr3 := tr2 ++ [Event.cidReceived completionID]
      let log_row : FinishRow :=
        { response := jsonDumps v
          status := "finished"
          duration := env.durationMs
          stacktrace := stackJson env }
      if env.targetService = some "log10" then
        match env.finishPost with
        | .ok _ => .ok v (tr3 ++ [Event.finishAttempt completionID log_row])
        | .error e =>
          .ok v (tr3 ++ [Event.finishAttempt completionID log_row, Event.errorLogged e])
      else if env.targetService = some "bigquery" then
        match env.bqFinishInsert with
        | .ok _ => .ok v (tr3 ++ [Event.bigqueryFinishTried log_row true])
        | .error e =>
          .ok v (tr3 ++ [Event.bigqueryFinishTried log_row false, Event.errorLogged e])
      else .ok v tr3

/-- Python function objects as they occur in this module: either an original
function (with its implementation) or the closure `wrapper` returned by
`intercepting_decorator`, holding the wrapped function. -/
inductive Func where
  | base (meta : FuncMeta) (impl : List PyVal → List (String × PyVal) → Except String PyVal)
  | wrapped (meta : FuncMeta) (inner : Func)

/-- Metadata (`__module__`, `__name__`, `__qualname__`, `__doc__`) of a
function object. -/
def Func.meta : Func → FuncMeta
  | .base m _ => m
  | .wrapped m _ => m

/-- Metadata of the bare closure `wrapper` before `functools.wraps` runs. -/
def wrapperOwnMeta : FuncMeta :=
  { module := "log10.load"
    name := "wrapper"
    qualname := "intercepting_decorator.<locals>.wrapper"
    doc := Option.none }

/-- Model of `functools.wraps(orig)` applied to `target`: the
`WRAPPER_ASSIGNMENTS` attributes of `orig` overwrite those of `target`. -/
def functools_wraps (orig : FuncMeta) (target : FuncMeta) : FuncMeta :=
  { target with
    module := orig.module
    name := orig.name
    qualname := orig.qualname
    doc := orig.doc }

/-- Model of `intercepting_decorator` (lines 146-200): returns the `wrapper`
closure over `func`, carrying metadata copied by `functools.wraps(func)`. -/
def intercepting_decorator (f : Func) : Func :=
  .wrapped (functools_wraps (Func.meta f) wrapperOwnMeta) f

/-- Invocation of a function object.  A wrapped function runs `wrapper`,
whose worker thread logs under the wrapped function's own metadata (the
closure variable `func`). -/
def runFunc (env : Env) : Func → List PyVal → List (String × PyVal) → CallResult
  | .base _ impl, args, kwargs =>
    match impl args kwargs with
    | .ok v => .ok v []
    | .error e => .raises e []
  | .wrapped _ inner, args, kwargs =>
    runWrapper env (Func.meta inner) kwargs (runFunc env inner args kwargs)

/-- Class members as discriminated by `intercept_class_methods` (lines
211-220): `classmethod` objects, plain functions (`types.FunctionType`),
bound methods (`types.MethodType`), `staticmethod` objects, nested classes,
and all remaining attributes. -/
inductive Member where
  | classmethodM (f : Func)
  | functionM (f : Func)
  | methodM (f : Func)
  | staticmethodM (f : Func)
  | nestedClass (members : List (String × Member))
  | other

mutual

/-- Action of one `intercept_class_methods` loop iteration on one member
(lines 212-220): unwrap-wrap-rebind for classmethods, wrap functions and
methods directly, recurse into nested classes, leave everything else
(including staticmethods) untouched. -/
def interceptMember : Member → Member
  | .classmethodM f => .classmethodM (intercepting_decorator f)
  | .functionM f => .functionM (intercepting_decorator f)
  | .methodM f => .methodM (intercepting_decorator f)
  | .staticmethodM f => .staticmethodM f
  | .nestedClass ms => .nestedClass (intercept_class_methods ms)
  | .other => .other

/-- Model of `intercept_class_methods` (lines 211-220): the `setattr` loop
over `vars(cls).items()`. -/
def intercept_class_methods : List (String × Member) → List (String × Member)
  | [] => []
  | (n, m) :: rest => (n, interceptMember m) :: intercept_class_methods rest

end

/-- Top-level module attributes as discriminated by `log10` (lines 222-228):
plain functions, classes, and everything else. -/
inductive ModuleAttr where
  | funcA (f : Func)
  | classA (members : List (String × Member))
  | otherA

/-- Action of one `log10` loop iteration on one module attribute. -/
def interceptModuleAttr : ModuleAttr → ModuleAttr
  | .funcA f => .funcA (intercepting_decorator f)
  | .classA ms => .classA (intercept_class_methods ms)
  | .otherA => .otherA

/-- Model of the scanner `log10` (lines 222-228): the `setattr` loop over
`vars(module).items()`. -/
def log10 : List (String × ModuleAttr) → List (String × ModuleAttr)
  | [] => []
  | (n, a) :: rest => (n, interceptModuleAttr a) :: log10 rest

/-- Attribute lookup in a class dict. -/
def findMember : List (String × Member) → String → Option Member
  | [], _ => Option.none
  | (n, m) :: rest, key => if n = key then some m else findMember rest key

/-- Attribute lookup in a module dict. -/
def findModuleAttr : List (String × ModuleAttr) → String → Option ModuleAttr
  | [], _ => Option.none
  | (n, a) :: rest, key => if n = key then some a else findModuleAttr rest key

/-- Process-wide mutable state: the global `sessionID` (line 54). -/
structure GlobalState where
  sessionID : String
deriving Repr, DecidableEq

/-- Model of `get_session_id` (lines 40-50): wraps any backend failure in a
new exception, otherwise returns the fresh session id from the backend. -/
def get_session_id (backendSession : Except String String) : Except String String :=
  match backendSession with
  | .ok sid => .ok sid
  | .error e => .error ("Failed to create LOG10 session: " ++ e)

/-- Model of `log10_session.__enter__` (lines 58-60): overwrite the global
`sessionID` with a freshly created one. -/
def log10_session_enter (backendSession : Except String String) (st : GlobalState) :
    Except String GlobalState :=
  match get_session_id backendSession with
  | .ok sid => .ok { sessionID := sid }
  | .error e => .error e

/-- Model of `log10_session.__exit__` (lines 62-63): it returns `None`
(falsy), so the state is untouched and an in-scope exception is not
suppressed. -/
def log10_session_exit (st : GlobalState) (exc : Option String) : GlobalState × Bool :=
  (st, false)

/-- Model of `with log10_session(): body` — Python `with` semantics over the
enter/exit methods above.  `body` returns the state it leaves behind and the
exception it raised, if any; the result carries the final state and the
exception that propagates out of the `with` statement. -/
def log10_session_with (backendSession : Except String String) (st : GlobalState)
    (body : GlobalState → GlobalState × Option String) :
    Except String (GlobalState × Option String) :=
  match log10_session_enter backendSession st with
  | .error e => .error e
  | .ok st1 =>
    let r := body st1
    let x := log10_session_exit r.1 r.2
    .ok (x.1, if x.2 then Option.none else r.2)

/-- True exactly on the `threadSpawned` event. -/
def isSpawn : Event → Bool
  | .threadSpawned => true
  | _ => false

/-- Number of interception layers that fired during a call: each layer
spawns exactly one worker thread. -/
def spawnCount (tr : List Event) : Nat :=
  tr.countP isSpawn

/-- True exactly on the outer blanket handler's `logging.error` event. -/
def isErrorLogged : Event → Bool
  | .errorLogged _ => true
  | _ => false

/-- The start-phase rows attempted against the backend during a call, in
order. -/
def startRows (tr : List Event) : List StartRow :=
  tr.filterMap fun e =>
    match e with
    | .startRowAttempt row => some row
    | .bigqueryStartTried row _ => some row
    | _ => Option.none

/-- Scan of a trace checking that every finish-phase backend call happens
strictly after a return of the wrapped callable and after its completion id
was received from the handoff queue.  `seenRet` records whether a
`callReturned` event has occurred; `cids` collects the completion ids
received so far. -/
def checkFinishOrder : List Event → Bool → List String → Bool
  | [], _, _ => true
  | Event.callReturned :: rest, _, cids => checkFinishOrder rest true cids
  | Event.cidReceived c :: rest, seenRet, cids => checkFinishOrder rest seenRet (c :: cids)
  | Event.finishAttempt c _ :: rest, seenRet, cids =>
    seenRet && cids.contains c && checkFinishOrder rest seenRet cids
  | Event.bigqueryFinishTried _ _ :: rest, seenRet, cids =>
    seenRet && !cids.isEmpty && checkFinishOrder rest seenRet cids
  | _ :: rest, seenRet, cids => checkFinishOrder rest seenRet cids

/-! ### Concrete fixtures used by counterexamples and witnesses -/

/-- Environment in which every backend interaction succeeds (log10 mode). -/
def envOK : Env :=
  { targetService := some "log10"
    sessionID := "sess-1"
    orgId := "org-1"
    startPost := .ok "cid-1"
    startLogPost := .ok ()
    bqStartInsert := .ok ()
    finishPost := .ok ()
    bqFinishInsert := .ok ()
    newUuid := "uuid-1"
    nowIso := "2023-05-01T00:00:00+00:00"
    durationMs := 5
    stack := [] }

/-- Environment in which the POST obtaining the completion id raises. -/
def envStartFail : Env :=
  { envOK with startPost := .error "ConnectionError" }

/-- Second start-failure environment (read timeout, different session). -/
def envStartFail2 : Env :=
  { envOK with startPost := .error "ReadTimeout", sessionID := "sess-2" }

/-- Metadata of the demo function `add`. -/
def addMeta : FuncMeta :=
  { module := "examples.mathapp"
    name := "add"
    qualname := "add"
    doc := some "Add two numbers." }

/-- Implementation of the demo function `add(a, b) -> a + b`. -/
def addImpl : List PyVal → List (String × PyVal) → Except String PyVal
  | [PyVal.int a, PyVal.int b], [] => .ok (.int (a + b))
  | _, _ => .error "TypeError"

/-- The demo function object `add`. -/
def addFunc : Func := .base addMeta addImpl

/-- Metadata of the demo function `greet`. -/
def greetMeta : FuncMeta :=
  { module := "examples.app"
    name := "greet"
    qualname := "greet"
    doc := Option.none }

/-- Implementation of the demo function `greet() -> "hi"`. -/
def greetImpl : List PyVal → List (String × PyVal) → Except String PyVal
  | [], [] => .ok (.str "hi")
  | _, _ => .error "TypeError"

/-- The demo function object `greet`. -/
def greetFunc : Func := .base greetMeta greetImpl

/-- Implementation of a demo function that always raises. -/
def boomImpl : List PyVal → List (String × PyVal) → Except String PyVal :=
  fun _ _ => .error "ValueError: boom"

/-- A demo function object that always raises. -/
def boomFunc : Func :=
  .base { module := "examples.app", name := "boom", qualname := "boom", doc := Option.none }
    boomImpl

/-- A demo class dict exercising every member kind. -/
def demoMembers : List (String × Member) :=
  [("create", Member.classmethodM greetFunc),
   ("compute", Member.functionM addFunc),
   ("helper", Member.staticmethodM greetFunc),
   ("Inner", Member.nestedClass [("run", Member.functionM greetFunc)]),
   ("counter", Member.other)]

/-- A demo module dict with a function, a class and a plain value. -/
def demoModule : List (String × ModuleAttr) :=
  [("add", ModuleAttr.funcA addFunc),
   ("Calc", ModuleAttr.classA demoMembers),
   ("VERSION", ModuleAttr.otherA)]

/-! ### Helper lemmas -/

/-- Looking an attribute up after the class scan is looking it up before and
transforming the member found. -/
theorem findMember_intercept (ms : List (String × Member)) (key : String) :
    findMember (intercept_class_methods ms) key = (findMember ms key).map interceptMember := by
  induction ms with
  | nil => rfl
  | cons hd tl ih =>
    obtain ⟨n, m⟩ := hd
    by_cases h : n = key
    · simp [intercept_class_methods, findMember, h]
    · simp [intercept_class_methods, findMember, h, ih]

/-- Looking an attribute up after the module scan is looking it up before
and transforming the attribute found. -/
theorem findModuleAttr_log10 (m : List (String × ModuleAttr)) (key : String) :
    findModuleAttr (log10 m) key = (findModuleAttr m key).map interceptModuleAttr := by
  induction m with
  | nil => rfl
  | cons hd tl ih =>
    obtain ⟨n, a⟩ := hd
    by_cases h : n = key
    · simp [log10, findModuleAttr, h]
    · simp [log10, findModuleAttr, h, ih]

/-- A function object is never equal to a wrapper around itself. -/
theorem wrapped_ne (f : Func) : ∀ m : FuncMeta, Func.wrapped m f ≠ f := by
  induction f with
  | base m impl => intro m2 h; exact Func.noConfusion h
  | wrapped m inner ih =>
    intro m2 h
    injection h with h1 h2
    exact ih m h2

/-- The worker thread spawns no further threads. -/
theorem spawnCount_log_async (env : Env) (fm : FuncMeta) (kwargs : List (String × PyVal)) :
    spawnCount (log_async env fm kwargs).2 = 0 := by
  unfold log_async
  rcases h : env.startPost with e | cid
  · simp [spawnCount, List.countP, List.countP.go, isSpawn]
  · by_cases h1 : env.targetService = some "log10"
    · rcases h2 : env.startLogPost with e | u <;>
        simp [h1, h2, spawnCount, List.countP, List.countP.go, isSpawn]
    · by_cases h3 : env.targetService = some "bigquery"
      · rcases h2 : env.bqStartInsert with e | u <;>
          simp [h1, h3, h2, spawnCount, List.countP, List.countP.go, isSpawn]
      · simp [h1, h3, spawnCount, List.countP, List.countP.go, isSpawn]

/-- Each execution of `wrapper` spawns exactly one worker thread beyond
those spawned by the wrapped call itself. -/
theorem spawnCount_runWrapper (env : Env) (fm : FuncMeta)
    (kwargs : List (String × PyVal)) (ir : CallResult) :
    spawnCount (runWrapper env fm kwargs ir).trace = spawnCount ir.trace + 1 := by
  have hthread := spawnCount_log_async env fm kwargs
  unfold runWrapper
  rcases ir with itr | ⟨v, itr⟩ | ⟨e, itr⟩
  · simp [CallResult.trace, spawnCount, List.countP_append, List.countP_cons, isSpawn] at hthread ⊢
    exact hthread
  · rcases h : (log_async env fm kwargs).1 with e | cid
    · simp [h, CallResult.trace, spawnCount, List.countP_append, List.countP_cons,
        isSpawn] at hthread ⊢
      exact hthread
    · by_cases h1 : env.targetService = some "log10"
      · rcases h2 : env.finishPost with e | u <;>
          · simp [h, h1, h2, CallResult.trace, spawnCount, List.countP_append,
              List.countP_cons, isSpawn] at hthread ⊢
            exact hthread
      · by_cases h3 : env.targetService = some "bigquery"
        · rcases h2 : env.bqFinishInsert with e | u <;>
            · simp [h, h1, h3, h2, CallResult.trace, spawnCount, List.countP_append,
                List.countP_cons, isSpawn] at hthread ⊢
              exact hthread
        · simp [h, h1, h3, CallResult.trace, spawnCount, List.countP_append,
            List.countP_cons, isSpawn] at hthread ⊢
          exact hthread
  · simp [CallResult.trace, spawnCount, List.countP_append, List.countP_cons, isSpawn]
      at hthread ⊢
    exact hthread

/-! ### Claim theorems -/

/-- C6: for every class processed by `intercept_class_methods`, a classmethod
member is unwrapped, its function wrapped and re-bound as a classmethod; a
plain function or method member is wrapped directly; a nested class member is
recursed into; and a staticmethod or non-callable member is left untouched. -/
theorem c6_class_scan (ms : List (String × Member)) (key : String) :
    (∀ f, findMember ms key = some (Member.classmethodM f) →
      findMember (intercept_class_methods ms) key
        = some (Member.classmethodM (intercepting_decorator f))) ∧
    (∀ f, findMember ms key = some (Member.functionM f) →
      findMember (intercept_class_methods ms) key
        = some (Member.functionM (intercepting_decorator f))) ∧
    (∀ f, findMember ms key = some (Member.methodM f) →
      findMember (intercept_class_methods ms) key
        = some (Member.methodM (intercepting_decorator f))) ∧
    (∀ inner, findMember ms key = some (Member.nestedClass inner) →
      findMember (intercept_class_methods ms) key
        = some (Member.nestedClass (intercept_class_methods inner))) ∧
    (∀ f, findMember ms key = some (Member.staticmethodM f) →
      findMember (intercept_class_methods ms) key = some (Member.staticmethodM f)) ∧
    (findMember ms key = some Member.other →
      findMember (intercept_class_methods ms) key = some Member.other) := by
  have h0 := findMember_intercept ms key
  refine ⟨fun f h => ?_, fun f h => ?_, fun f h => ?_, fun inner h => ?_,
    fun f h => ?_, fun h => ?_⟩ <;>
    rw [h0, h] <;> simp [interceptMember]

/-- Witness for C6 on a concrete class dict: its classmethod member gets
unwrapped, decorated, and re-bound as a classmethod. -/
theorem c6_class_scan_witness :
    findMember (intercept_class_methods demoMembers) "create"
      = some (Member.classmethodM (intercepting_decorator greetFunc)) :=
  (c6_class_scan demoMembers "create").1 greetFunc rfl

/-- C8: entering `log10_session` overwrites the global session id with the
freshly created one (the previous state is discarded); `__exit__` restores
nothing and suppresses nothing; hence after a `with` block the body's final
state stands and the body's exception propagates. -/
theorem c8_session_scope (sid : String) (st st2 : GlobalState) (exc : Option String)
    (body : GlobalState → GlobalState × Option String) :
    log10_session_enter (Except.ok sid) st = Except.ok { sessionID := sid } ∧
    log10_session_exit st2 exc = (st2, false) ∧
    log10_session_with (Except.ok sid) st body
      = Except.ok ((body { sessionID := sid }).1, (body { sessionID := sid }).2) := by
  refine ⟨rfl, rfl, ?_⟩
  simp [log10_session_with, log10_session_enter, get_session_id, log10_session_exit]

/-- C9: the intercepted version of a function keeps the original's
`__name__`, `__qualname__`, `__module__` and docstring (`functools.wraps`),
and this is what the scanner stores in place of the function. -/
theorem c9_metadata_preserved (m : List (String × ModuleAttr)) (key : String) (f : Func)
    (h : findModuleAttr m key = some (ModuleAttr.funcA f)) :
    (Func.meta (intercepting_decorator f)).name = (Func.meta f).name ∧
    (Func.meta (intercepting_decorator f)).qualname = (Func.meta f).qualname ∧
    (Func.meta (intercepting_decorator f)).module = (Func.meta f).module ∧
    (Func.meta (intercepting_decorator f)).doc = (Func.meta f).doc ∧
    findModuleAttr (log10 m) key = some (ModuleAttr.funcA (intercepting_decorator f)) := by
  refine ⟨rfl, rfl, rfl, rfl, ?_⟩
  rw [findModuleAttr_log10, h]
  rfl

/-- Witness for C9 on a concrete module: the scanner replaced `add` by its
decorated version, whose metadata equals the original's. -/
theorem c9_metadata_preserved_witness :
    (Func.meta (intercepting_decorator addFunc)).name = (Func.meta addFunc).name ∧
    (Func.meta (intercepting_decorator addFunc)).qualname = (Func.meta addFunc).qualname ∧
    (Func.meta (intercepting_decorator addFunc)).module = (Func.meta addFunc).module ∧
    (Func.meta (intercepting_decorator addFunc)).doc = (Func.meta addFunc).doc ∧
    findModuleAttr (log10 demoModule) "add"
      = some (ModuleAttr.funcA (intercepting_decorator addFunc)) :=
  c9_metadata_preserved demoModule "add" addFunc rfl

/-- C10: a staticmethod member survives the class scan completely unchanged
(it matches none of the `isinstance` branches), so invocations of it gain no
interception layer: an unwrapped base function emits no log events at all. -/
theorem c10_staticmethods_untouched (ms : List (String × Member)) (key : String) (f : Func)
    (h : findMember ms key = some (Member.staticmethodM f)) :
    findMember (intercept_class_methods ms) key = some (Member.staticmethodM f) ∧
    (∀ env mm impl args kwargs, f = Func.base mm impl →
      (runFunc env f args kwargs).trace = []) := by
  constructor
  · rw [findMember_intercept, h]
    rfl
  · intro env mm impl args kwargs hf
    subst hf
    unfold runFunc
    cases impl args kwargs <;> rfl

/-- Witness for C10 on a concrete class dict: the staticmethod `helper` is
still the undecorated `greet` after the scan. -/
theorem c10_staticmethods_untouched_witness :
    findMember (intercept_class_methods demoMembers) "helper"
      = some (Member.staticmethodM greetFunc) :=
  (c10_staticmethods_untouched demoMembers "helper" greetFunc rfl).1

/-- C1 (counterexample to the unconditional claim): `add(2, 3)` returns `5`
without raising, yet in an environment where the start-phase POST raises,
the intercepted call never returns any value at all — the worker thread dies
before enqueueing, so the busy-poll on the handoff queue spins forever. -/
theorem c1_counterexample :
    addImpl [PyVal.int 2, PyVal.int 3] [] = Except.ok (PyVal.int 5) ∧
    CallResult.returnsValue (runFunc envStartFail (intercepting_decorator addFunc)
      [PyVal.int 2, PyVal.int 3] []) = Option.none ∧
    CallResult.terminates (runFunc envStartFail (intercepting_decorator addFunc)
      [PyVal.int 2, PyVal.int 3] []) = false :=
  ⟨rfl, rfl, rfl⟩

/-- C1 (amended): if the wrapped call does not raise and the worker thread's
`log_async` completes and enqueues a completion id, then the intercepted call
terminates and returns exactly the wrapped call's value, whatever the
outcome of the finish-phase backend call. -/
theorem c1_pass_through (env : Env) (f : Func) (args : List PyVal)
    (kwargs : List (String × PyVal)) (v : PyVal) (itr : List Event) (cid : String)
    (hstart : (log_async env (Func.meta f) kwargs).1 = Except.ok cid)
    (hcall : runFunc env f args kwargs = CallResult.ok v itr) :
    ∃ tr, runFunc env (intercepting_decorator f) args kwargs = CallResult.ok v tr := by
  simp only [intercepting_decorator, runFunc, hcall, runWrapper, hstart]
  by_cases h1 : env.targetService = some "log10"
  · rcases h2 : env.finishPost with e | u <;> simp [h1, h2]
  · by_cases h3 : env.targetService = some "bigquery"
    · rcases h2 : env.bqFinishInsert with e | u <;> simp [h1, h3, h2]
    · simp [h1, h3]

/-- Witness for C1 (amended) at `add(2, 3)` in the all-successful
environment: the intercepted call returns `5`. -/
theorem c1_pass_through_witness :
    ∃ tr, runFunc envOK (intercepting_decorator addFunc) [PyVal.int 2, PyVal.int 3] []
      = CallResult.ok (PyVal.int 5) tr :=
  c1_pass_through envOK addFunc [PyVal.int 2, PyVal.int 3] [] (PyVal.int 5) [] "cid-1"
    rfl rfl

/-- C2: if the wrapped callable raises, the exception lands in the same
blanket `except` handler as logging failures, gets passed to
`logging.error`, and the wrapper terminates returning the initialized
sentinel `None` instead of re-raising. -/
theorem c2_exception_swallowed (env : Env) (f : Func) (args : List PyVal)
    (kwargs : List (String × PyVal)) (e : String) (itr : List Event)
    (hraise : runFunc env f args kwargs = CallResult.raises e itr) :
    ∃ tr, runFunc env (intercepting_decorator f) args kwargs
        = CallResult.ok PyVal.none tr ∧
      Event.errorLogged e ∈ tr := by
  simp only [intercepting_decorator, runFunc, hraise, runWrapper]
  exact ⟨_, rfl, by simp⟩

/-- Witness for C2: calling the intercepted always-raising function returns
`None` with the exception logged, even though every backend call would
succeed. -/
theorem c2_exception_swallowed_witness :
    ∃ tr, runFunc envOK (intercepting_decorator boomFunc) [] []
        = CallResult.ok PyVal.none tr ∧
      Event.errorLogged "ValueError: boom" ∈ tr :=
  c2_exception_swallowed envOK boomFunc [] [] "ValueError: boom" [] rfl

/-- C3 (counterexample): `greet()` returns `"hi"`, yet when the start-phase
POST raises (a simulated network error) the intercepted call does not
terminate at all — and no error ever reaches the wrapper's
`logging.error` handler, because the main thread is stuck in the busy-poll
while the exception died with the worker thread. -/
theorem c3_counterexample :
    greetImpl [] [] = Except.ok (PyVal.str "hi") ∧
    CallResult.terminates (runFunc envStartFail2 (intercepting_decorator greetFunc) [] [])
      = false ∧
    List.any (CallResult.trace
      (runFunc envStartFail2 (intercepting_decorator greetFunc) [] [])) isErrorLogged
      = false :=
  ⟨rfl, rfl, rfl⟩

/-- C3 (amended): if the start-phase POST raises while the wrapped call
returns normally, the worker thread dies before enqueueing, the busy-poll
never exits, and the intercepted call never terminates. -/
theorem c3_start_failure_diverges (env : Env) (f : Func) (args : List PyVal)
    (kwargs : List (String × PyVal)) (e : String) (v : PyVal) (itr : List Event)
    (hfail : env.startPost = Except.error e)
    (hcall : runFunc env f args kwargs = CallResult.ok v itr) :
    CallResult.terminates (runFunc env (intercepting_decorator f) args kwargs) = false := by
  simp only [intercepting_decorator, runFunc, hcall, runWrapper, log_async, hfail]
  rfl

/-- Witness for C3 (amended) at `add(2, 3)` under a raising start POST. -/
theorem c3_start_failure_diverges_witness :
    CallResult.terminates (runFunc envStartFail (intercepting_decorator addFunc)
      [PyVal.int 4, PyVal.int 1] []) = false :=
  c3_start_failure_diverges envStartFail addFunc [PyVal.int 4, PyVal.int 1] []
    "ConnectionError" (PyVal.int 5) [] rfl rfl

/-- C5 (counterexample): two invocations of intercepted `add` with different
positional arguments produce the identical start-phase record, whose
`request` blob is the empty JSON object — the positional arguments are
nowhere in the record, so the record cannot contain the serialized
positional arguments of the invocation. -/
theorem c5_counterexample :
    startRows (runFunc envOK (intercepting_decorator addFunc)
      [PyVal.int 2, PyVal.int 3] []).trace
      = startRows (runFunc envOK (intercepting_decorator addFunc)
        [PyVal.int 7, PyVal.int 8] []).trace ∧
    startRows (runFunc envOK (intercepting_decorator addFunc)
      [PyVal.int 2, PyVal.int 3] []).trace
      = [{ status := "started", orig_module := "examples.mathapp", orig_qualname := "add",
           request := "\x7b\x7d", session_id := "sess-1", organization_id := "org-1",
           id := Option.none, created_at := Option.none }] :=
  ⟨rfl, rfl⟩

/-- C5 (amended): whenever the completion-id POST succeeds (log10 mode),
exactly one start record is attempted; it carries status `started`, the
wrapped function's module and qualified name, the keyword arguments — and
only those — serialized as a single JSON blob, the current session id and
the organization id.  The positional arguments are never sent. -/
theorem c5_start_row_content (env : Env) (m : FuncMeta)
    (impl : List PyVal → List (String × PyVal) → Except String PyVal)
    (args : List PyVal) (kwargs : List (String × PyVal)) (cid : String)
    (hstart : env.startPost = Except.ok cid)
    (hts : env.targetService = some "log10") :
    startRows (runFunc env (intercepting_decorator (Func.base m impl)) args kwargs).trace
      = [{ status := "started", orig_module := m.module, orig_qualname := m.qualname,
           request := jsonDumps (PyVal.dict kwargs), session_id := env.sessionID,
           organization_id := env.orgId, id := Option.none, created_at := Option.none }] := by
  simp only [intercepting_decorator, runFunc]
  cases hcall : impl args kwargs <;>
  · simp only [runWrapper, log_async, hstart, hts, if_true, eq_self_iff_true]
    rcases h2 : env.startLogPost with e | u
    · simp [h2, CallResult.trace, startRows, mkStartRow, Func.meta]
    · by_cases h3 : env.targetService = some "log10"
      · rcases h4 : env.finishPost with e | u <;>
          simp [h2, h3, h4, CallResult.trace, startRows, mkStartRow, Func.meta]
      · simp_all

/-- Witness for C5 (amended) at `add` called with keyword arguments
`b=3`: the attempted start record serializes exactly the kwargs dict. -/
theorem c5_start_row_content_witness :
    startRows (runFunc envOK (intercepting_decorator (Func.base addMeta addImpl))
      [PyVal.int 2] [("b", PyVal.int 3)]).trace
      = [{ status := "started", orig_module := addMeta.module,
           orig_qualname := addMeta.qualname,
           request := jsonDumps (PyVal.dict [("b", PyVal.int 3)]),
           session_id := envOK.sessionID, organization_id := envOK.orgId,
           id := Option.none, created_at := Option.none }] :=
  c5_start_row_content envOK addMeta addImpl [PyVal.int 2] [("b", PyVal.int 3)] "cid-1"
    rfl rfl

/-- C7: applying the scanner twice wraps each module-level function twice
(the second pass is not a no-op), and a doubly wrapped function spawns one
extra logging layer per wrap on every invocation: its trace holds two more
thread spawns than the unwrapped function's. -/
theorem c7_double_instrumentation (m : List (String × ModuleAttr)) (key : String) (f : Func)
    (h : findModuleAttr m key = some (ModuleAttr.funcA f)) :
    findModuleAttr (log10 (log10 m)) key
      = some (ModuleAttr.funcA (intercepting_decorator (intercepting_decorator f))) ∧
    log10 (log10 m) ≠ log10 m ∧
    (∀ env args kwargs,
      spawnCount (runFunc env (intercepting_decorator (intercepting_decorator f))
        args kwargs).trace
        = spawnCount (runFunc env f args kwargs).trace + 2) := by
  have hdouble : findModuleAttr (log10 (log10 m)) key
      = some (ModuleAttr.funcA (intercepting_decorator (intercepting_decorator f))) := by
    rw [findModuleAttr_log10, findModuleAttr_log10, h]
    rfl
  have hsingle : findModuleAttr (log10 m) key
      = some (ModuleAttr.funcA (intercepting_decorator f)) := by
    rw [findModuleAttr_log10, h]
    rfl
  refine ⟨hdouble, ?_, ?_⟩
  · intro heq
    rw [heq, hsingle] at hdouble
    injection hdouble with h1
    injection h1 with h2
    injection h2 with h3 h4
    exact wrapped_ne f _ h4.symm
  · intro env args kwargs
    simp only [intercepting_decorator, runFunc, spawnCount_runWrapper]

/-- Witness for C7 on a concrete module: after two scans, `add` is wrapped
twice. -/
theorem c7_double_instrumentation_witness :
    findModuleAttr (log10 (log10 demoModule)) "add"
      = some (ModuleAttr.funcA (intercepting_decorator (intercepting_decorator addFunc))) :=
  (c7_double_instrumentation demoModule "add" addFunc rfl).1

/-- C4: in every environment and for every invocation of an intercepted
function, every finish-phase backend call in the trace (log10 POST or
BigQuery insert) occurs strictly after a return of the wrapped callable and
strictly after its completion id was received from the handoff queue. -/
theorem c4_finish_after_return_and_cid (env : Env) (m : FuncMeta)
    (impl : List PyVal → List (String × PyVal) → Except String PyVal)
    (args : List PyVal) (kwargs : List (String × PyVal)) :
    checkFinishOrder
      (runFunc env (intercepting_decorator (Func.base m impl)) args kwargs).trace
      false [] = true := by
  simp only [intercepting_decorator, runFunc]
  cases hcall : impl args kwargs
  all_goals simp only [runWrapper, log_async]
  all_goals repeat' split
  all_goals simp [checkFinishOrder, CallResult.trace, List.contains]

end Log10
